import Mathlib

/-!
Shallow embedding of the Sphere++ `Application` lifecycle and Azure IoT
connectivity core (`application.hh`, `SpherePlusPlus` namespace, together with
the timerfd-based `Timer` of `timer.hh`).

Modelling conventions:
- `uint32_t` values are `Nat` reduced with `u32` (mod 2^32) exactly where the
  C++ arithmetic is performed at 32-bit width (the target is 32-bit ARM, so
  `int` and `unsigned int` have rank 32 and `uint32 * int` multiplies in
  `unsigned int`).
- Pointers/handles are modelled by `Bool` presence flags (`m_eventLoop`,
  `m_sysevent`, `m_iotHandle`, `g_application`).
- Every member function returning `bool` is embedded as a function
  `AppState → Ret` where `Ret` carries the C++ return value, the state after
  the call (including partial mutations on early-return paths), and the list
  of externally visible effects (OS and Azure SDK calls) the call performed,
  in program order. External calls that the code checks with `AbortErrno` or
  `AbortIfNeq` are assumed to succeed, except the provisioning call in
  `tryConnectIot`, whose outcome is an explicit parameter because the code
  branches on it.
- `alarm(n)` replaces any pending alarm; `alarm(0)` cancels it.
- `timerfd_settime` with a zero `it_value` disarms the timer, so arming with a
  zero delay is modelled as disarming.
-/

namespace SpherePlusPlus

/-- 32-bit wrap-around, applied where the C++ source computes in `uint32_t`. -/
def u32 (n : Nat) : Nat := n % 4294967296

/-- Arming state of a timerfd (`it_value`/`it_interval` pair). -/
inductive TimerArm where
  | unarmed
  | oneShot (delay_us : Nat)
  | periodic (period_us : Nat)
deriving DecidableEq, Repr

/-- State of a `Timer` (timer.hh): `fdValid` models `m_timerFd >= 0` together
with the event-loop registration, which are created and destroyed as a pair. -/
structure TimerState where
  fdValid : Bool
  arm : TimerArm
deriving DecidableEq, Repr

/-- `Timer::init` (timer.hh): fails if already initialized, otherwise creates
the timerfd (initially disarmed) and registers it with the event loop. -/
def Timer.timerInit (t : TimerState) : Option TimerState :=
  if t.fdValid then none
  else some { fdValid := true, arm := TimerArm.unarmed }

/-- `Timer::startOneShot` (timer.hh): fails if not initialized; otherwise
`timerfd_settime` with `it_interval = 0`, `it_value = delay_us`, replacing any
previous arming. A zero `it_value` disarms the timerfd. -/
def Timer.startOneShot (delay_us : Nat) (t : TimerState) : Option TimerState :=
  if t.fdValid = false then none
  else some { t with arm := if delay_us = 0 then TimerArm.unarmed else TimerArm.oneShot delay_us }

/-- `Timer::stop` (timer.hh): fails if not initialized; otherwise disarms
unconditionally. -/
def Timer.timerStop (t : TimerState) : Option TimerState :=
  if t.fdValid = false then none
  else some { t with arm := TimerArm.unarmed }

/-- Externally visible OS / Azure SDK calls, recorded in program order. -/
inductive Effect where
  | createEventLoop
  | setBackref
  | installTermHandler
  | registerSysevent
  | enableTimeSync
  | installAlrmHandler
  | alarmSet (seconds : Nat)
  | alarmCancel
  | timerCreate
  | armOneShot (delay_us : Nat)
  | timerStop
  | connectAttempt (scope : List Char)
  | logConnectFailure
  | setKeepaliveOption (seconds : Nat)
  | setRetryPolicy (maxSeconds : Nat)
  | setConnStatusCallback
  | logConnected
  | logDisconnect (reason : Nat)
  | stopEventLoop
  | destroyIotConnection
  | unregisterSysevent
  | closeEventLoop
  | restoreTermHandler
  | restoreAlrmHandler
  | clearBackref
  | deferUpdate (minutes : Nat)
  | resumeUpdate
  | forceReboot
  | forcePowerDown (seconds : Nat)
deriving DecidableEq, Repr

/-- `IOTHUB_CLIENT_CONNECTION_STATUS`: the code only distinguishes
`AUTHENTICATED` from everything else. -/
inductive ConnStatus where
  | authenticated
  | unauthenticated
deriving DecidableEq, Repr

/-- `AZURE_SPHERE_PROV_RETURN_VALUE.result` of the provisioning call. -/
inductive ProvResult where
  | ok
  | invalidParam
  | networkNotReady
  | deviceauthNotReady
  | provDeviceError
  | iothubClientError
  | unknown
deriving DecidableEq, Repr

/-- `ApplicationFeatures` bitmask, one flag per bit. -/
structure Features where
  updateNotification : Bool
  timeSync : Bool
  watchdog : Bool
  iotCentral : Bool
  keepalive : Bool
deriving DecidableEq, Repr

/-- State of one `Application` object plus the process-wide `g_application`
back-reference and the process alarm (all exclusively owned, single thread). -/
structure AppState where
  eventLoop : Bool
  running : Bool
  sysevent : Bool
  iotTimer : TimerState
  iotHandle : Bool
  iotConnected : Bool
  iotScopeId : List Char
  iotRetryInterval : Nat
  iotMaxRetryInterval : Nat
  useIot : Bool
  keepalivePeriod : Nat
  useKeepalive : Bool
  watchdogPeriod : Nat
  useWatchdog : Bool
  gApplication : Bool
  pendingAlarm : Option Nat
  termHandlerInstalled : Bool
  alrmHandlerInstalled : Bool
deriving DecidableEq, Repr

/-- `Application::k_defaultWatchdogPeriod`. -/
def k_defaultWatchdogPeriod : Nat := 60

/-- `Application::k_defaultIotMaxRetryInterval`. -/
def k_defaultIotMaxRetryInterval : Nat := 120

/-- `Application::k_initialIotRetryInterval`. -/
def k_initialIotRetryInterval : Nat := 10

/-- `Application::k_defaultKeepalivePeriod`. -/
def k_defaultKeepalivePeriod : Nat := 30

/-- The `Application` constructor: every field as in the member initializer
list; `m_iotScopeId` is a zero-initialized char array, i.e. the empty string. -/
def initialState : AppState where
  eventLoop := false
  running := false
  sysevent := false
  iotTimer := { fdValid := false, arm := TimerArm.unarmed }
  iotHandle := false
  iotConnected := false
  iotScopeId := []
  iotRetryInterval := k_initialIotRetryInterval
  iotMaxRetryInterval := k_defaultIotMaxRetryInterval
  useIot := false
  keepalivePeriod := k_defaultKeepalivePeriod
  useKeepalive := false
  watchdogPeriod := k_defaultWatchdogPeriod
  useWatchdog := false
  gApplication := false
  pendingAlarm := none
  termHandlerInstalled := false
  alrmHandlerInstalled := false

/-- Result of a `bool`-returning member function: the C++ return value, the
object state after the call, and the external calls made, in order. -/
structure Ret where
  ok : Bool
  state : AppState
  effects : List Effect
deriving DecidableEq, Repr

/-- The POSIX `alarm(seconds)` call: replaces any pending alarm; zero cancels. -/
def alarmSyscall (seconds : Nat) (s : AppState) : AppState × List Effect :=
  if seconds = 0 then ({ s with pendingAlarm := none }, [Effect.alarmCancel])
  else ({ s with pendingAlarm := some seconds }, [Effect.alarmSet seconds])

/-- `snprintf(m_iotScopeId, sizeof(m_iotScopeId), "%s", azscope)` with a
64-byte buffer: at most 63 characters are stored plus the terminator
(the char array is modelled as a list of characters). -/
def snprintf64 (sc : List Char) : List Char := sc.take 63

/-- `Application::petWatchdog` (application.hh): aborts when uninitialized or
when the Watchdog feature is off, otherwise `alarm(m_watchdogPeriod)`. -/
def Application.petWatchdog (s : AppState) : Ret :=
  if s.eventLoop = false then ⟨false, s, []⟩
  else if s.useWatchdog = false then ⟨false, s, []⟩
  else
    let p := alarmSyscall s.watchdogPeriod s
    ⟨true, p.1, p.2⟩

/-- `Application::setWatchdogPeriod` (application.hh): aborts when
uninitialized, when the Watchdog feature is off, or when `period_s == 0`;
otherwise stores the period and immediately pets the watchdog. -/
def Application.setWatchdogPeriod (period_s : Nat) (s : AppState) : Ret :=
  if s.eventLoop = false then ⟨false, s, []⟩
  else if s.useWatchdog = false then ⟨false, s, []⟩
  else if period_s = 0 then ⟨false, s, []⟩
  else Application.petWatchdog { s with watchdogPeriod := period_s }

/-- `Application::setMaxRetryInterval` (application.hh): aborts when
uninitialized, when the IoTCentral feature is off, or when the argument is
zero; stores the new ceiling; when connected, pushes the ceiling to the live
connection's retry policy; when not connected and the current retry interval
exceeds the new ceiling, clamps it and restarts the connection timer with
`m_iotRetryInterval * 1000000` microseconds (a `uint32` product). -/
def Application.setMaxRetryInterval (max_retry_interval_s : Nat) (s : AppState) : Ret :=
  if s.eventLoop = false then ⟨false, s, []⟩
  else if s.useIot = false then ⟨false, s, []⟩
  else if max_retry_interval_s = 0 then ⟨false, s, []⟩
  else
    let s1 : AppState := { s with iotMaxRetryInterval := max_retry_interval_s }
    if s1.iotConnected then
      ⟨true, s1, [Effect.setRetryPolicy s1.iotMaxRetryInterval]⟩
    else
      if s1.iotRetryInterval > s1.iotMaxRetryInterval then
        let s2 : AppState := { s1 with iotRetryInterval := s1.iotMaxRetryInterval }
        match Timer.startOneShot (u32 (s2.iotRetryInterval * 1000000)) s2.iotTimer with
        | none => ⟨false, s2, []⟩
        | some t =>
          ⟨true, { s2 with iotTimer := t },
            [Effect.armOneShot (u32 (s2.iotRetryInterval * 1000000))]⟩
      else ⟨true, s1, []⟩

/-- `Application::setKeepalivePeriod` (application.hh): aborts when
uninitialized, when the Keepalive feature is off, or when the argument is
zero; stores the new period and, when connected, applies it live. -/
def Application.setKeepalivePeriod (period_s : Nat) (s : AppState) : Ret :=
  if s.eventLoop = false then ⟨false, s, []⟩
  else if s.useKeepalive = false then ⟨false, s, []⟩
  else if period_s = 0 then ⟨false, s, []⟩
  else
    let s1 : AppState := { s with keepalivePeriod := period_s }
    if s1.iotConnected then
      ⟨true, s1, [Effect.setKeepaliveOption period_s]⟩
    else ⟨true, s1, []⟩

/-- `Application::blockUpdate` (application.hh): aborts when uninitialized,
otherwise defers the update event. No feature flag is checked. -/
def Application.blockUpdate (duration_m : Nat) (s : AppState) : Ret :=
  if s.eventLoop = false then ⟨false, s, []⟩
  else ⟨true, s, [Effect.deferUpdate duration_m]⟩

/-- `Application::allowUpdate` (application.hh): aborts when uninitialized,
otherwise resumes the update event. No feature flag is checked. -/
def Application.allowUpdate (s : AppState) : Ret :=
  if s.eventLoop = false then ⟨false, s, []⟩
  else ⟨true, s, [Effect.resumeUpdate]⟩

/-- `Application::systemReboot` (application.hh): unconditionally requests a
forced system reboot; neither initialization nor any feature is checked. -/
def Application.systemReboot (s : AppState) : Ret :=
  ⟨true, s, [Effect.forceReboot]⟩

/-- `Application::systemSuspend` (application.hh): unconditionally requests a
forced power-down; neither initialization nor any feature is checked. -/
def Application.systemSuspend (duration_s : Nat) (s : AppState) : Ret :=
  ⟨true, s, [Effect.forcePowerDown duration_s]⟩

/-- `Application::tryConnectIot` (application.hh). On provisioning failure:
log the classified failure, arm the one-shot retry timer with
`m_iotRetryInterval * 1000000` microseconds (`uint32` product), then square
the retry interval (`uint32` product) and clamp it to the ceiling, and return
true. On success: set `m_iotHandle`, apply the keepalive option when enabled,
install the exponential-backoff retry policy with the ceiling, register the
connection-status callback, and log success. -/
def Application.tryConnectIot (outcome : ProvResult) (s : AppState) : Ret :=
  if outcome = ProvResult.ok then
    let s1 : AppState := { s with iotHandle := true }
    let keepaliveEffects :=
      if s1.useKeepalive then [Effect.setKeepaliveOption s1.keepalivePeriod] else []
    ⟨true, s1,
      Effect.connectAttempt s.iotScopeId :: keepaliveEffects ++
        [Effect.setRetryPolicy s1.iotMaxRetryInterval, Effect.setConnStatusCallback,
         Effect.logConnected]⟩
  else
    match Timer.startOneShot (u32 (s.iotRetryInterval * 1000000)) s.iotTimer with
    | none => ⟨false, s, [Effect.connectAttempt s.iotScopeId, Effect.logConnectFailure]⟩
    | some t =>
      let squared := u32 (s.iotRetryInterval * s.iotRetryInterval)
      let clamped := if squared > s.iotMaxRetryInterval then s.iotMaxRetryInterval else squared
      ⟨true, { s with iotTimer := t, iotRetryInterval := clamped },
        [Effect.connectAttempt s.iotScopeId, Effect.logConnectFailure,
         Effect.armOneShot (u32 (s.iotRetryInterval * 1000000))]⟩

/-- `Application::iotConnectionCallback` (application.hh): sets
`m_iotConnected` exactly when the status is `AUTHENTICATED`, and logs the
disconnect reason otherwise. -/
def Application.iotConnectionCallback (status : ConnStatus) (reason : Nat)
    (s : AppState) : AppState × List Effect :=
  let connected := match status with
    | ConnStatus.authenticated => true
    | ConnStatus.unauthenticated => false
  ({ s with iotConnected := connected },
   if connected then [] else [Effect.logDisconnect reason])

/-- Tail of `Application::init(features)` from the `m_useIot` assignment on:
set the IoT flags and, when the IoTCentral feature is on, initialize the
connection timer, connect its callback, and perform the first connection
attempt. `acc` carries the effects of the earlier part of `init`. -/
def Application.init1Iot (f : Features) (outcome : ProvResult) (s : AppState)
    (acc : List Effect) : Ret :=
  let s6 : AppState := { s with useIot := f.iotCentral, useKeepalive := f.keepalive }
  if f.iotCentral then
    match Timer.timerInit s6.iotTimer with
    | none => ⟨false, s6, acc⟩
    | some t =>
      let s7 : AppState := { s6 with iotTimer := t }
      let r := Application.tryConnectIot outcome s7
      ⟨r.ok, r.state, acc ++ [Effect.timerCreate] ++ r.effects⟩
  else ⟨true, s6, acc⟩

/-- `Application::init(features)` (application.hh): aborts when
`g_application` is set or the object already has an event loop; otherwise
creates the event loop, sets the back-reference, installs the termination
handler, and initializes each requested feature in order (update
notifications, time sync, watchdog with an immediate pet, IoT with a first
connection attempt). -/
def Application.init1 (f : Features) (outcome : ProvResult) (s : AppState) : Ret :=
  if s.gApplication = true then ⟨false, s, []⟩
  else if s.eventLoop = true then ⟨false, s, []⟩
  else
    let s1 : AppState :=
      { s with eventLoop := true, gApplication := true, termHandlerInstalled := true }
    let e1 : List Effect := [Effect.createEventLoop, Effect.setBackref, Effect.installTermHandler]
    let s2 : AppState := if f.updateNotification then { s1 with sysevent := true } else s1
    let e2 : List Effect := e1 ++ (if f.updateNotification then [Effect.registerSysevent] else [])
    let e3 : List Effect := e2 ++ (if f.timeSync then [Effect.enableTimeSync] else [])
    let s4 : AppState := { s2 with useWatchdog := f.watchdog }
    if f.watchdog then
      let s4a : AppState := { s4 with alrmHandlerInstalled := true }
      let rPet := Application.petWatchdog s4a
      let e4 : List Effect := e3 ++ [Effect.installAlrmHandler] ++ rPet.effects
      if rPet.ok = false then ⟨false, rPet.state, e4⟩
      else Application.init1Iot f outcome rPet.state e4
    else Application.init1Iot f outcome s4 e3

/-- `Application::init(features, watchdog_period_s)`: aborts when already
initialized or when the period is zero; stores the watchdog period then
delegates to `init(features)`. -/
def Application.init2 (f : Features) (watchdog_period_s : Nat) (outcome : ProvResult)
    (s : AppState) : Ret :=
  if s.eventLoop = true then ⟨false, s, []⟩
  else if watchdog_period_s = 0 then ⟨false, s, []⟩
  else Application.init1 f outcome { s with watchdogPeriod := watchdog_period_s }

/-- `Application::init(features, azscope)`: aborts when already initialized or
when `azscope` is null; stores the (truncated) scope id then delegates to
`init(features)`. -/
def Application.init3 (f : Features) (azscope : Option (List Char)) (outcome : ProvResult)
    (s : AppState) : Ret :=
  if s.eventLoop = true then ⟨false, s, []⟩
  else
    match azscope with
    | none => ⟨false, s, []⟩
    | some sc => Application.init1 f outcome { s with iotScopeId := snprintf64 sc }

/-- `Application::init(features, azscope, keepalive_period_s)`: aborts when
already initialized, when `azscope` is null, or when the keepalive period is
zero; stores the (truncated) scope id and the keepalive period then delegates
to `init(features)`. -/
def Application.init4 (f : Features) (azscope : Option (List Char)) (keepalive_period_s : Nat)
    (outcome : ProvResult) (s : AppState) : Ret :=
  if s.eventLoop = true then ⟨false, s, []⟩
  else
    match azscope with
    | none => ⟨false, s, []⟩
    | some sc =>
      if keepalive_period_s = 0 then ⟨false, s, []⟩
      else Application.init1 f outcome
        { s with iotScopeId := snprintf64 sc, keepalivePeriod := keepalive_period_s }

/-- `Application::init(features, watchdog_period_s, azscope)`: aborts when
already initialized, when the watchdog period is zero, or when `azscope` is
null; stores both then delegates to `init(features)`. -/
def Application.init5 (f : Features) (watchdog_period_s : Nat) (azscope : Option (List Char))
    (outcome : ProvResult) (s : AppState) : Ret :=
  if s.eventLoop = true then ⟨false, s, []⟩
  else if watchdog_period_s = 0 then ⟨false, s, []⟩
  else
    match azscope with
    | none => ⟨false, s, []⟩
    | some sc => Application.init1 f outcome
      { s with watchdogPeriod := watchdog_period_s, iotScopeId := snprintf64 sc }

/-- `Application::init(features, watchdog_period_s, azscope,
keepalive_period_s)`: aborts when already initialized, when either period is
zero, or when `azscope` is null; stores all three then delegates. -/
def Application.init6 (f : Features) (watchdog_period_s : Nat) (azscope : Option (List Char))
    (keepalive_period_s : Nat) (outcome : ProvResult) (s : AppState) : Ret :=
  if s.eventLoop = true then ⟨false, s, []⟩
  else if watchdog_period_s = 0 then ⟨false, s, []⟩
  else
    match azscope with
    | none => ⟨false, s, []⟩
    | some sc =>
      if keepalive_period_s = 0 then ⟨false, s, []⟩
      else Application.init1 f outcome
        { s with watchdogPeriod := watchdog_period_s, iotScopeId := snprintf64 sc,
                 keepalivePeriod := keepalive_period_s }

/-- Tail of `Application::destroy` after the IoT block: watchdog unwind
(`alarm(0)`, restore the alarm disposition), update-notification unregister,
event-loop close, termination-handler restore, back-reference clear. -/
def Application.destroyRest (s : AppState) (acc : List Effect) : Ret :=
  let p1 : AppState × List Effect :=
    if s.useWatchdog then
      let a := alarmSyscall 0 s
      ({ a.1 with alrmHandlerInstalled := false },
       acc ++ a.2 ++ [Effect.restoreAlrmHandler])
    else (s, acc)
  let p2 : AppState × List Effect :=
    if p1.1.sysevent then
      ({ p1.1 with sysevent := false }, p1.2 ++ [Effect.unregisterSysevent])
    else p1
  ⟨true,
   { p2.1 with eventLoop := false, termHandlerInstalled := false, gApplication := false },
   p2.2 ++ [Effect.closeEventLoop, Effect.restoreTermHandler, Effect.clearBackref]⟩

/-- `Application::destroy` (application.hh): aborts when not initialized;
otherwise clears `m_running`, stops the event loop, and unwinds: stop the
connection timer and destroy a live connection (IoT feature), cancel the
alarm and restore its disposition (watchdog feature), unregister update
notifications, close the event loop, restore the termination handler, clear
the back-reference. -/
def Application.destroy (s : AppState) : Ret :=
  if s.eventLoop = false then ⟨false, s, []⟩
  else
    let s1 : AppState := { s with running := false }
    let e1 : List Effect := [Effect.stopEventLoop]
    if s1.useIot then
      match Timer.timerStop s1.iotTimer with
      | none => ⟨false, s1, e1⟩
      | some t =>
        let s2 : AppState := { s1 with iotTimer := t }
        if s2.iotConnected then
          Application.destroyRest { s2 with iotHandle := false }
            (e1 ++ [Effect.timerStop, Effect.destroyIotConnection])
        else Application.destroyRest s2 (e1 ++ [Effect.timerStop])
    else Application.destroyRest s1 e1

/-- Registrations acquired by `init` and released by `destroy`, used to state
the unwind-order property. -/
inductive Resource where
  | eventLoop
  | backref
  | termHandler
  | sysevent
  | watchdog
  | iot
deriving DecidableEq, Repr

/-- The registration an effect acquires or releases, if any. -/
def resourceOf : Effect → Option Resource
  | Effect.createEventLoop => some Resource.eventLoop
  | Effect.closeEventLoop => some Resource.eventLoop
  | Effect.setBackref => some Resource.backref
  | Effect.clearBackref => some Resource.backref
  | Effect.installTermHandler => some Resource.termHandler
  | Effect.restoreTermHandler => some Resource.termHandler
  | Effect.registerSysevent => some Resource.sysevent
  | Effect.unregisterSysevent => some Resource.sysevent
  | Effect.installAlrmHandler => some Resource.watchdog
  | Effect.restoreAlrmHandler => some Resource.watchdog
  | Effect.timerCreate => some Resource.iot
  | Effect.timerStop => some Resource.iot
  | Effect.destroyIotConnection => some Resource.iot
  | _ => none

/-- Collapse adjacent duplicates (the two IoT release steps are adjacent). -/
def collapseAdj : List Resource → List Resource
  | [] => []
  | [r] => [r]
  | r :: r2 :: rs =>
    if r = r2 then collapseAdj (r2 :: rs) else r :: collapseAdj (r2 :: rs)

/-- Order in which an effect trace touches registrations. -/
def resourceOrder (es : List Effect) : List Resource :=
  collapseAdj (es.filterMap resourceOf)


/-! ## Concrete execution traces used by several properties -/

/-- Feature mask with only IoTCentral set. -/
def featIot : Features := ⟨false, false, false, true, false⟩

/-- Empty feature mask. -/
def featNone : Features := ⟨false, false, false, false, false⟩

/-- Feature mask with every feature set. -/
def featAll : Features := ⟨true, true, true, true, true⟩

/-- `init(IoTCentral)` whose first connection attempt fails: the retry timer
is armed for 10 s and the interval squares to 100. -/
def bootFail : Ret := Application.init1 featIot ProvResult.networkNotReady initialState

/-- Second consecutive failure from the default configuration. -/
def dfltFail2 : Ret := Application.tryConnectIot ProvResult.networkNotReady bootFail.state

/-- Third consecutive failure from the default configuration. -/
def dfltFail3 : Ret := Application.tryConnectIot ProvResult.networkNotReady dfltFail2.state

/-- Raise the retry ceiling to `UINT32_MAX` while a retry is scheduled. -/
def bigMax : Ret := Application.setMaxRetryInterval 4294967295 bootFail.state

/-- Failures under the huge ceiling: the interval grows 100 → 10000. -/
def bigFail2 : Ret := Application.tryConnectIot ProvResult.networkNotReady bigMax.state

/-- Next failure: the interval grows 10000 → 100000000. -/
def bigFail3 : Ret := Application.tryConnectIot ProvResult.networkNotReady bigFail2.state

/-- Next failure: `100000000 * 100000000` overflows `uint32_t`, so the stored
interval becomes `10^16 mod 2^32 = 1874919424`, not the ceiling. -/
def bigFail4 : Ret := Application.tryConnectIot ProvResult.networkNotReady bigFail3.state

/-- Lower the ceiling to 5000 while the interval is 1874919424: the clamped
re-arm computes `5000 * 1000000` in `uint32_t`, i.e. 705032704 us. -/
def bigClamp : Ret := Application.setMaxRetryInterval 5000 bigFail4.state

/-- `init(IoTCentral)` with a failing first attempt (interval becomes 100),
then a successful retry. -/
def retrySucc : Ret := Application.tryConnectIot ProvResult.ok bootFail.state

/-- The transport then reports `AUTHENTICATED`. -/
def retryAuth : AppState × List Effect :=
  Application.iotConnectionCallback ConnStatus.authenticated 0 retrySucc.state

/-- While connected (interval still 100), lower the ceiling to 50. -/
def connLower : Ret := Application.setMaxRetryInterval 50 retryAuth.1

/-- An application initialized with no features at all. -/
def plainApp : Ret := Application.init1 featNone ProvResult.ok initialState

/-- A full-featured `init` with a successful first connection attempt. -/
def fullInit : Ret := Application.init1 featAll ProvResult.ok initialState

/-- The transport authenticates the full-featured application. -/
def fullAuth : AppState × List Effect :=
  Application.iotConnectionCallback ConnStatus.authenticated 0 fullInit.state

/-- Tearing the full-featured application down. -/
def fullDestroy : Ret := Application.destroy fullAuth.1

/-- After the authenticated session, the transport drops the connection. -/
def fullDrop : AppState × List Effect :=
  Application.iotConnectionCallback ConnStatus.unauthenticated 3 retryAuth.1

/-- A later connection attempt fails: it is scheduled with the carried-over
interval of 100 s, not the initial 10 s. -/
def dropRefail : Ret := Application.tryConnectIot ProvResult.networkNotReady fullDrop.1

/-! ## Claims -/

/-- Claim C4: for `p > 0`, on an application initialized with the watchdog
feature, `setWatchdogPeriod(p)` stores the period and immediately re-pets, so
the alarm is rescheduled to fire `p` seconds later, replacing any prior
pending alarm; `setWatchdogPeriod(0)` fails and changes nothing. -/
theorem c4_set_watchdog_period :
    (∀ (s : AppState) (p : Nat), s.eventLoop = true → s.useWatchdog = true → p ≠ 0 →
      Application.setWatchdogPeriod p s =
        ⟨true, { s with watchdogPeriod := p, pendingAlarm := some p }, [Effect.alarmSet p]⟩) ∧
    (∀ s : AppState, Application.setWatchdogPeriod 0 s = ⟨false, s, []⟩) := by
  constructor
  · intro s p h1 h2 hp
    simp [Application.setWatchdogPeriod, Application.petWatchdog, alarmSyscall, h1, h2, hp]
  · intro s
    cases h1 : s.eventLoop <;> cases h2 : s.useWatchdog <;>
      simp [Application.setWatchdogPeriod, h1, h2]

/-- Witness for C4 at a concrete watchdog-enabled state. -/
theorem c4_set_watchdog_period_witness :
    (fullInit.state.eventLoop = true ∧ fullInit.state.useWatchdog = true ∧ (7 : Nat) ≠ 0) ∧
    Application.setWatchdogPeriod 7 fullInit.state =
      ⟨true, { fullInit.state with watchdogPeriod := 7, pendingAlarm := some 7 },
       [Effect.alarmSet 7]⟩ :=
  ⟨by decide, c4_set_watchdog_period.1 fullInit.state 7 (by decide) (by decide) (by decide)⟩

/-- Claim C5: calling any `init` overload while the application is already
initialized fails and leaves the state unchanged, with no external effect. -/
theorem c5_double_init_no_side_effects :
    ∀ (s : AppState), s.eventLoop = true →
    ∀ (f : Features) (wp kp : Nat) (sc : Option (List Char)) (o : ProvResult),
      Application.init1 f o s = ⟨false, s, []⟩ ∧
      Application.init2 f wp o s = ⟨false, s, []⟩ ∧
      Application.init3 f sc o s = ⟨false, s, []⟩ ∧
      Application.init4 f sc kp o s = ⟨false, s, []⟩ ∧
      Application.init5 f wp sc o s = ⟨false, s, []⟩ ∧
      Application.init6 f wp sc kp o s = ⟨false, s, []⟩ := by
  intro s h f wp kp sc o
  refine ⟨?_, ?_, ?_, ?_, ?_, ?_⟩ <;>
    cases hG : s.gApplication <;>
      simp [Application.init1, Application.init2, Application.init3, Application.init4,
            Application.init5, Application.init6, h, hG]

/-- Witness for C5 on a concretely initialized application. -/
theorem c5_double_init_no_side_effects_witness :
    plainApp.state.eventLoop = true ∧
    Application.init1 featIot ProvResult.ok plainApp.state = ⟨false, plainApp.state, []⟩ :=
  ⟨by decide,
   (c5_double_init_no_side_effects plainApp.state (by decide) featIot 5 5 none
      ProvResult.ok).1⟩

/-- Claim C8: the connection-status callback sets the connected flag to true
exactly when the status is `AUTHENTICATED`, logs the disconnect reason
otherwise, and mutates nothing else; in particular the retry timer is left
exactly as it was, so no retry is scheduled after a drop. -/
theorem c8_connection_callback_frame :
    ∀ (st : ConnStatus) (reason : Nat) (s : AppState),
      ((Application.iotConnectionCallback st reason s).1.iotConnected = true ↔
        st = ConnStatus.authenticated) ∧
      (Application.iotConnectionCallback st reason s).1 =
        { s with iotConnected := (Application.iotConnectionCallback st reason s).1.iotConnected } ∧
      (Application.iotConnectionCallback st reason s).1.iotTimer = s.iotTimer ∧
      (Application.iotConnectionCallback st reason s).1.iotRetryInterval = s.iotRetryInterval ∧
      (Application.iotConnectionCallback st reason s).1.iotMaxRetryInterval
        = s.iotMaxRetryInterval ∧
      (Application.iotConnectionCallback st reason s).2 =
        (if st = ConnStatus.authenticated then [] else [Effect.logDisconnect reason]) := by
  intro st reason s
  cases st <;> simp [Application.iotConnectionCallback]

/-- Claim C9: a successful connection attempt never resets the retry interval:
the success path of `tryConnectIot` leaves it untouched, the constructor sets
it to the initial 10 s, and after fail-reconnect-drop the next failure is
scheduled with the carried-over 100 s interval, not the initial one. -/
theorem c9_success_keeps_backoff :
    (∀ s : AppState,
      (Application.tryConnectIot ProvResult.ok s).ok = true ∧
      (Application.tryConnectIot ProvResult.ok s).state.iotRetryInterval
        = s.iotRetryInterval) ∧
    initialState.iotRetryInterval = k_initialIotRetryInterval ∧
    retrySucc.ok = true ∧
    retrySucc.state.iotRetryInterval = 100 ∧
    dropRefail.effects.getLast? = some (Effect.armOneShot (100 * 1000000)) ∧
    dropRefail.effects.getLast? ≠ some (Effect.armOneShot (k_initialIotRetryInterval * 1000000)) := by
  refine ⟨fun s => ?_, by decide, by decide, by decide, by decide, by decide⟩
  simp [Application.tryConnectIot]


/-- State component of `alarm(n)`: only the pending alarm changes. -/
theorem alarmSyscall_fst (n : Nat) (s : AppState) :
    (alarmSyscall n s).1 = { s with pendingAlarm := if n = 0 then none else some n } := by
  unfold alarmSyscall; split <;> simp_all

/-- Effect component of `alarm(n)`. -/
theorem alarmSyscall_snd (n : Nat) (s : AppState) :
    (alarmSyscall n s).2 = if n = 0 then [Effect.alarmCancel] else [Effect.alarmSet n] := by
  unfold alarmSyscall; split <;> rfl

/-- On a fresh object (no back-reference, no event loop, timer not created),
`init(features)` succeeds for every feature mask and provisioning outcome, and
never touches the stored scope id. -/
theorem init1_fresh (f : Features) (o : ProvResult) (s : AppState)
    (h1 : s.gApplication = false) (h2 : s.eventLoop = false)
    (h3 : s.iotTimer.fdValid = false) :
    (Application.init1 f o s).ok = true ∧
    (Application.init1 f o s).state.iotScopeId = s.iotScopeId := by
  rcases f with ⟨fu, ft, fw, fi, fk⟩
  by_cases ho : o = ProvResult.ok <;>
    cases fu <;> cases ft <;> cases fw <;> cases fi <;> cases fk <;>
      simp [Application.init1, Application.init1Iot, Application.petWatchdog,
            Application.tryConnectIot, Timer.timerInit, Timer.startOneShot, alarmSyscall_fst,
            alarmSyscall_snd, h1, h2, h3, ho]

/-- Claim C10: the scope-id `init` overloads accept any non-null scope string,
store only its first 63 characters (64-byte buffer with terminator), never
fail because the scope is over-long, and every connection attempt presents the
stored (truncated) scope id. A null scope makes the overload fail. -/
theorem c10_scope_truncation :
    (∀ (f : Features) (sc : List Char) (o : ProvResult),
       (Application.init3 f (some sc) o initialState).ok = true ∧
       (Application.init3 f (some sc) o initialState).state.iotScopeId = sc.take 63) ∧
    (∀ (f : Features) (sc : List Char) (kp : Nat) (o : ProvResult), kp ≠ 0 →
       (Application.init4 f (some sc) kp o initialState).ok = true ∧
       (Application.init4 f (some sc) kp o initialState).state.iotScopeId = sc.take 63) ∧
    (∀ (f : Features) (sc : List Char) (wp : Nat) (o : ProvResult), wp ≠ 0 →
       (Application.init5 f wp (some sc) o initialState).ok = true ∧
       (Application.init5 f wp (some sc) o initialState).state.iotScopeId = sc.take 63) ∧
    (∀ (f : Features) (sc : List Char) (wp kp : Nat) (o : ProvResult), wp ≠ 0 → kp ≠ 0 →
       (Application.init6 f wp (some sc) kp o initialState).ok = true ∧
       (Application.init6 f wp (some sc) kp o initialState).state.iotScopeId = sc.take 63) ∧
    (∀ (f : Features) (o : ProvResult),
       Application.init3 f none o initialState = ⟨false, initialState, []⟩) ∧
    (∀ sc : List Char, (snprintf64 sc).length ≤ 63) ∧
    (∀ (o : ProvResult) (s : AppState),
       (Application.tryConnectIot o s).effects.head? =
         some (Effect.connectAttempt s.iotScopeId)) := by
  refine ⟨?_, ?_, ?_, ?_, ?_, ?_, ?_⟩
  · intro f sc o
    have h := init1_fresh f o { initialState with iotScopeId := snprintf64 sc }
      (by simp [initialState]) (by simp [initialState]) (by simp [initialState])
    simpa [Application.init3, initialState, snprintf64] using h
  · intro f sc kp o hkp
    have h := init1_fresh f o
      { initialState with iotScopeId := snprintf64 sc, keepalivePeriod := kp }
      (by simp [initialState]) (by simp [initialState]) (by simp [initialState])
    simpa [Application.init4, initialState, snprintf64, hkp] using h
  · intro f sc wp o hwp
    have h := init1_fresh f o
      { initialState with watchdogPeriod := wp, iotScopeId := snprintf64 sc }
      (by simp [initialState]) (by simp [initialState]) (by simp [initialState])
    simpa [Application.init5, initialState, snprintf64, hwp] using h
  · intro f sc wp kp o hwp hkp
    have h := init1_fresh f o
      { initialState with watchdogPeriod := wp, iotScopeId := snprintf64 sc,
                          keepalivePeriod := kp }
      (by simp [initialState]) (by simp [initialState]) (by simp [initialState])
    simpa [Application.init6, initialState, snprintf64, hwp, hkp] using h
  · intro f o
    simp [Application.init3, initialState]
  · intro sc
    simp [snprintf64]
  · intro o s
    by_cases ho : o = ProvResult.ok
    · simp [Application.tryConnectIot, ho]
    · simp only [Application.tryConnectIot, ho, if_neg]
      cases h : Timer.startOneShot (u32 (s.iotRetryInterval * 1000000)) s.iotTimer <;>
        simp [h]

/-- Witness for C10 with a 100-character scope id. -/
theorem c10_scope_truncation_witness :
    ((9 : Nat) ≠ 0 ∧ (7 : Nat) ≠ 0) ∧
    (Application.init6 featIot 7 (some (List.replicate 100 'a')) 9 ProvResult.ok
        initialState).ok = true ∧
    (Application.init6 featIot 7 (some (List.replicate 100 'a')) 9 ProvResult.ok
        initialState).state.iotScopeId = (List.replicate 100 'a').take 63 :=
  ⟨by decide,
   c10_scope_truncation.2.2.2.1 featIot (List.replicate 100 'a') 7 9 ProvResult.ok
     (by decide) (by decide)⟩

/-- The failure path of `tryConnectIot`, written exactly as the source
computes it: arm at `uint32(interval * 1000000)` microseconds, then square in
`uint32` and clamp to the ceiling. -/
theorem tryConnectIot_fail_spec (s : AppState) (o : ProvResult)
    (ho : o ≠ ProvResult.ok) (hv : s.iotTimer.fdValid = true) :
    Application.tryConnectIot o s =
      ⟨true,
       { s with
           iotTimer :=
             { s.iotTimer with
                 arm :=
                   if u32 (s.iotRetryInterval * 1000000) = 0 then TimerArm.unarmed
                   else TimerArm.oneShot (u32 (s.iotRetryInterval * 1000000)) },
           iotRetryInterval :=
             if u32 (s.iotRetryInterval * s.iotRetryInterval) > s.iotMaxRetryInterval
             then s.iotMaxRetryInterval
             else u32 (s.iotRetryInterval * s.iotRetryInterval) },
       [Effect.connectAttempt s.iotScopeId, Effect.logConnectFailure,
        Effect.armOneShot (u32 (s.iotRetryInterval * 1000000))]⟩ := by
  simp [Application.tryConnectIot, Timer.startOneShot, ho, hv]

/-- Clamping written with an `if` agrees with `min`. -/
theorem ifClamp_eq_min (a b : Nat) : (if a > b then b else a) = min a b := by
  split <;> omega

/-- Claim C1 (amended): on every failed attempt `tryConnectIot` arms the
one-shot retry timer with `uint32(retryIntervalSeconds * 10^6)` microseconds
and then updates `retryIntervalSeconds := min(uint32(retryIntervalSeconds^2),
maxRetryIntervalSeconds)`; whenever the products fit in 32 bits this is the
claimed `delay = retryIntervalSeconds`, `min(retryIntervalSeconds^2, max)`;
from the defaults 10/120 three consecutive failures schedule exactly 10, 100
and 120 seconds. -/
theorem c1_backoff_amended :
    (∀ (s : AppState) (o : ProvResult), o ≠ ProvResult.ok → s.iotTimer.fdValid = true →
       (Application.tryConnectIot o s).ok = true ∧
       (Application.tryConnectIot o s).effects =
         [Effect.connectAttempt s.iotScopeId, Effect.logConnectFailure,
          Effect.armOneShot (u32 (s.iotRetryInterval * 1000000))] ∧
       (Application.tryConnectIot o s).state.iotRetryInterval =
         min (u32 (s.iotRetryInterval * s.iotRetryInterval)) s.iotMaxRetryInterval) ∧
    (∀ (s : AppState) (o : ProvResult), o ≠ ProvResult.ok → s.iotTimer.fdValid = true →
       s.iotRetryInterval * 1000000 < 4294967296 →
       s.iotRetryInterval * s.iotRetryInterval < 4294967296 →
       (Application.tryConnectIot o s).effects =
         [Effect.connectAttempt s.iotScopeId, Effect.logConnectFailure,
          Effect.armOneShot (s.iotRetryInterval * 1000000)] ∧
       (Application.tryConnectIot o s).state.iotRetryInterval =
         min (s.iotRetryInterval * s.iotRetryInterval) s.iotMaxRetryInterval) ∧
    (initialState.iotRetryInterval = 10 ∧ initialState.iotMaxRetryInterval = 120 ∧
     bootFail.effects.getLast? = some (Effect.armOneShot (10 * 1000000)) ∧
     dfltFail2.effects = [Effect.connectAttempt [], Effect.logConnectFailure,
       Effect.armOneShot (100 * 1000000)] ∧
     dfltFail3.effects = [Effect.connectAttempt [], Effect.logConnectFailure,
       Effect.armOneShot (120 * 1000000)] ∧
     bootFail.state.iotRetryInterval = 100 ∧ dfltFail2.state.iotRetryInterval = 120 ∧
     dfltFail3.state.iotRetryInterval = 120) := by
  refine ⟨?_, ?_, by decide⟩
  · intro s o ho hv
    rw [tryConnectIot_fail_spec s o ho hv]
    simp [ifClamp_eq_min]
  · intro s o ho hv hm hsq
    rw [tryConnectIot_fail_spec s o ho hv]
    simp [ifClamp_eq_min, u32, Nat.mod_eq_of_lt hm, Nat.mod_eq_of_lt hsq]

/-- Witness for C1 (amended) at the reachable state after the first failure. -/
theorem c1_backoff_amended_witness :
    (ProvResult.networkNotReady ≠ ProvResult.ok ∧ bootFail.state.iotTimer.fdValid = true ∧
     bootFail.state.iotRetryInterval * 1000000 < 4294967296 ∧
     bootFail.state.iotRetryInterval * bootFail.state.iotRetryInterval < 4294967296) ∧
    (Application.tryConnectIot ProvResult.networkNotReady bootFail.state).effects =
      [Effect.connectAttempt bootFail.state.iotScopeId, Effect.logConnectFailure,
       Effect.armOneShot (bootFail.state.iotRetryInterval * 1000000)] ∧
    (Application.tryConnectIot ProvResult.networkNotReady
        bootFail.state).state.iotRetryInterval =
      min (bootFail.state.iotRetryInterval * bootFail.state.iotRetryInterval)
        bootFail.state.iotMaxRetryInterval :=
  ⟨⟨by decide, by decide, by decide, by decide⟩,
   c1_backoff_amended.2.1 bootFail.state ProvResult.networkNotReady (by decide) (by decide)
     (by decide) (by decide)⟩

/-- Claim C1 fails as stated: in the reachable state with interval `10^8` and
ceiling `UINT32_MAX`, a further failure stores `10^16 mod 2^32 = 1874919424`,
not `min((10^8)^2, UINT32_MAX) = UINT32_MAX` — the squaring is performed in
`uint32_t`. -/
theorem c1_backoff_counterexample :
    bigFail3.state.iotRetryInterval = 100000000 ∧
    bigFail3.state.iotMaxRetryInterval = 4294967295 ∧
    bigFail3.state.iotConnected = false ∧
    bigFail4.ok = true ∧
    bigFail4.state.iotRetryInterval = 1874919424 ∧
    bigFail4.state.iotRetryInterval ≠
      min (bigFail3.state.iotRetryInterval * bigFail3.state.iotRetryInterval)
        bigFail3.state.iotMaxRetryInterval := by decide


/-- Claim C2 (amended): `setMaxRetryInterval(v)` fails for `v = 0`; when
connected it stores the ceiling and pushes it to the live retry policy; when
not connected with the current interval above the new ceiling it clamps the
interval to `v` and immediately replaces the pending one-shot delay with
`uint32(v * 10^6)` microseconds (equal to `v` seconds whenever the product
fits in 32 bits); otherwise it only stores the ceiling. -/
theorem c2_set_max_retry_amended :
    (∀ s : AppState, Application.setMaxRetryInterval 0 s = ⟨false, s, []⟩) ∧
    (∀ (s : AppState) (v : Nat), s.eventLoop = true → s.useIot = true → v ≠ 0 →
       s.iotConnected = true →
       Application.setMaxRetryInterval v s =
         ⟨true, { s with iotMaxRetryInterval := v }, [Effect.setRetryPolicy v]⟩) ∧
    (∀ (s : AppState) (v : Nat), s.eventLoop = true → s.useIot = true → v ≠ 0 →
       s.iotConnected = false → v < s.iotRetryInterval → s.iotTimer.fdValid = true →
       (Application.setMaxRetryInterval v s).ok = true ∧
       (Application.setMaxRetryInterval v s).state.iotRetryInterval = v ∧
       (Application.setMaxRetryInterval v s).state.iotMaxRetryInterval = v ∧
       (Application.setMaxRetryInterval v s).state.iotTimer.arm =
         (if u32 (v * 1000000) = 0 then TimerArm.unarmed
          else TimerArm.oneShot (u32 (v * 1000000))) ∧
       (Application.setMaxRetryInterval v s).effects =
         [Effect.armOneShot (u32 (v * 1000000))]) ∧
    (∀ (s : AppState) (v : Nat), s.eventLoop = true → s.useIot = true → v ≠ 0 →
       s.iotConnected = false → s.iotRetryInterval ≤ v →
       Application.setMaxRetryInterval v s =
         ⟨true, { s with iotMaxRetryInterval := v }, []⟩) := by
  refine ⟨?_, ?_, ?_, ?_⟩
  · intro s
    cases h1 : s.eventLoop <;> cases h2 : s.useIot <;>
      simp [Application.setMaxRetryInterval, h1, h2]
  · intro s v h1 h2 hv hc
    simp [Application.setMaxRetryInterval, h1, h2, hv, hc]
  · intro s v h1 h2 hv hc hlt hfd
    simp [Application.setMaxRetryInterval, Timer.startOneShot, h1, h2, hv, hc, hlt, hfd,
          Nat.not_le.mpr hlt]
  · intro s v h1 h2 hv hc hle
    simp [Application.setMaxRetryInterval, h1, h2, hv, hc, Nat.not_lt.mpr hle]

/-- Witness for C2 (amended): clamping branch at the reachable state with
interval 1874919424, ceiling lowered to 5000. -/
theorem c2_set_max_retry_amended_witness :
    (bigFail4.state.eventLoop = true ∧ bigFail4.state.useIot = true ∧ (5000 : Nat) ≠ 0 ∧
     bigFail4.state.iotConnected = false ∧ 5000 < bigFail4.state.iotRetryInterval ∧
     bigFail4.state.iotTimer.fdValid = true) ∧
    (Application.setMaxRetryInterval 5000 bigFail4.state).ok = true ∧
    (Application.setMaxRetryInterval 5000 bigFail4.state).state.iotRetryInterval = 5000 ∧
    (Application.setMaxRetryInterval 5000 bigFail4.state).state.iotMaxRetryInterval = 5000 ∧
    (Application.setMaxRetryInterval 5000 bigFail4.state).state.iotTimer.arm =
      (if u32 (5000 * 1000000) = 0 then TimerArm.unarmed
       else TimerArm.oneShot (u32 (5000 * 1000000))) ∧
    (Application.setMaxRetryInterval 5000 bigFail4.state).effects =
      [Effect.armOneShot (u32 (5000 * 1000000))] :=
  ⟨⟨by decide, by decide, by decide, by decide, by decide, by decide⟩,
   c2_set_max_retry_amended.2.2.1 bigFail4.state 5000 (by decide) (by decide) (by decide)
     (by decide) (by decide) (by decide)⟩

/-- Claim C2 fails as stated: at the reachable state with interval 1874919424,
lowering the ceiling to 5000 clamps the interval to 5000 but re-arms the timer
with `uint32(5000 * 10^6) = 705032704` microseconds, not the clamped value of
5000 seconds — the microsecond conversion is performed in `uint32_t`. -/
theorem c2_set_max_retry_counterexample :
    bigClamp.ok = true ∧
    bigClamp.state.iotRetryInterval = 5000 ∧
    bigClamp.state.iotTimer.arm = TimerArm.oneShot 705032704 ∧
    bigClamp.state.iotTimer.arm ≠ TimerArm.oneShot (5000 * 1000000) := by decide

/-- Claim C3 (amended): `retryIntervalSeconds ≤ maxRetryIntervalSeconds` holds
initially and is preserved by `tryConnectIot` (any outcome) and by
`setMaxRetryInterval` whenever the application is not connected, or is
connected and the new ceiling is at least the current interval; the connected
branch does not clamp, so a ceiling below the current interval breaks the
invariant. -/
theorem c3_invariant_amended :
    (initialState.iotRetryInterval ≤ initialState.iotMaxRetryInterval) ∧
    (∀ (s : AppState) (o : ProvResult), s.iotRetryInterval ≤ s.iotMaxRetryInterval →
       (Application.tryConnectIot o s).state.iotRetryInterval ≤
         (Application.tryConnectIot o s).state.iotMaxRetryInterval) ∧
    (∀ (s : AppState) (v : Nat), s.iotConnected = false →
       s.iotRetryInterval ≤ s.iotMaxRetryInterval →
       (Application.setMaxRetryInterval v s).state.iotRetryInterval ≤
         (Application.setMaxRetryInterval v s).state.iotMaxRetryInterval) ∧
    (∀ (s : AppState) (v : Nat), s.iotConnected = true →
       s.iotRetryInterval ≤ s.iotMaxRetryInterval → s.iotRetryInterval ≤ v →
       (Application.setMaxRetryInterval v s).state.iotRetryInterval ≤
         (Application.setMaxRetryInterval v s).state.iotMaxRetryInterval) := by
  refine ⟨by decide, ?_, ?_, ?_⟩
  · intro s o h
    by_cases ho : o = ProvResult.ok
    · simpa [Application.tryConnectIot, ho] using h
    · cases hv : s.iotTimer.fdValid
      · simp only [Application.tryConnectIot, ho, if_neg, Timer.startOneShot, hv]
        simpa using h
      · rw [tryConnectIot_fail_spec s o ho hv]
        simp only [ifClamp_eq_min]
        exact Nat.min_le_right _ _
  · intro s v hc h
    by_cases h1 : s.eventLoop = false
    · simpa [Application.setMaxRetryInterval, h1] using h
    · by_cases h2 : s.useIot = false
      · simpa [Application.setMaxRetryInterval, h1, h2] using h
      · by_cases hv : v = 0
        · simpa [Application.setMaxRetryInterval, h1, h2, hv] using h
        · by_cases hgt : s.iotRetryInterval > v
          · cases hfd : s.iotTimer.fdValid <;>
              simp [Application.setMaxRetryInterval, Timer.startOneShot, h1, h2, hv, hc,
                    hgt, hfd]
          · simp only [Nat.not_lt] at hgt
            simp [Application.setMaxRetryInterval, h1, h2, hv, hc, Nat.not_lt.mpr hgt, hgt]
  · intro s v hc h hv2
    by_cases h1 : s.eventLoop = false
    · simpa [Application.setMaxRetryInterval, h1] using h
    · by_cases h2 : s.useIot = false
      · simpa [Application.setMaxRetryInterval, h1, h2] using h
      · by_cases hv : v = 0
        · simpa [Application.setMaxRetryInterval, h1, h2, hv] using h
        · simpa [Application.setMaxRetryInterval, h1, h2, hv, hc] using hv2

/-- Witness for C3 (amended) on the default state after one failure. -/
theorem c3_invariant_amended_witness :
    bootFail.state.iotRetryInterval ≤ bootFail.state.iotMaxRetryInterval ∧
    (Application.tryConnectIot ProvResult.networkNotReady
        bootFail.state).state.iotRetryInterval ≤
      (Application.tryConnectIot ProvResult.networkNotReady
        bootFail.state).state.iotMaxRetryInterval :=
  ⟨by decide,
   c3_invariant_amended.2.1 bootFail.state ProvResult.networkNotReady (by decide)⟩

/-- Claim C3 fails as stated: after failure, successful reconnect and
authentication (interval 100, ceiling 120), `setMaxRetryInterval(50)` in the
connected branch lowers the ceiling without clamping, leaving interval 100 >
ceiling 50. -/
theorem c3_invariant_counterexample :
    retryAuth.1.iotConnected = true ∧
    retryAuth.1.iotRetryInterval = 100 ∧
    connLower.ok = true ∧
    connLower.state.iotMaxRetryInterval = 50 ∧
    connLower.state.iotRetryInterval = 100 ∧
    ¬ (connLower.state.iotRetryInterval ≤ connLower.state.iotMaxRetryInterval) := by decide


/-- Claim C6 (amended): `petWatchdog`, `setWatchdogPeriod`,
`setMaxRetryInterval` and `setKeepalivePeriod` each fail when the application
is uninitialized or their governing feature is disabled; `blockUpdate` and
`allowUpdate` fail only when uninitialized (no feature check); `systemReboot`
and `systemSuspend` perform the power-management call unconditionally, with
neither an initialization nor a feature check. -/
theorem c6_runtime_controls_amended :
    (∀ (s : AppState) (p : Nat), s.eventLoop = false ∨ s.useWatchdog = false →
       Application.petWatchdog s = ⟨false, s, []⟩ ∧
       Application.setWatchdogPeriod p s = ⟨false, s, []⟩) ∧
    (∀ (s : AppState) (v : Nat), s.eventLoop = false ∨ s.useIot = false →
       Application.setMaxRetryInterval v s = ⟨false, s, []⟩) ∧
    (∀ (s : AppState) (p : Nat), s.eventLoop = false ∨ s.useKeepalive = false →
       Application.setKeepalivePeriod p s = ⟨false, s, []⟩) ∧
    (∀ (s : AppState) (m : Nat), s.eventLoop = false →
       Application.blockUpdate m s = ⟨false, s, []⟩ ∧
       Application.allowUpdate s = ⟨false, s, []⟩) ∧
    (∀ (s : AppState) (d : Nat),
       Application.systemReboot s = ⟨true, s, [Effect.forceReboot]⟩ ∧
       Application.systemSuspend d s = ⟨true, s, [Effect.forcePowerDown d]⟩) := by
  refine ⟨?_, ?_, ?_, ?_, ?_⟩
  · rintro s p (h | h) <;>
      cases h1 : s.eventLoop <;>
        simp_all [Application.petWatchdog, Application.setWatchdogPeriod]
  · rintro s v (h | h) <;>
      cases h1 : s.eventLoop <;>
        simp_all [Application.setMaxRetryInterval]
  · rintro s p (h | h) <;>
      cases h1 : s.eventLoop <;>
        simp_all [Application.setKeepalivePeriod]
  · intro s m h
    simp [Application.blockUpdate, Application.allowUpdate, h]
  · intro s d
    simp [Application.systemReboot, Application.systemSuspend]

/-- Witness for C6 (amended) on the constructed (uninitialized) state. -/
theorem c6_runtime_controls_amended_witness :
    (initialState.eventLoop = false ∨ initialState.useWatchdog = false) ∧
    Application.petWatchdog initialState = ⟨false, initialState, []⟩ ∧
    Application.setWatchdogPeriod 5 initialState = ⟨false, initialState, []⟩ :=
  ⟨Or.inl (by decide),
   (c6_runtime_controls_amended.1 initialState 5 (Or.inl (by decide))).1,
   (c6_runtime_controls_amended.1 initialState 5 (Or.inl (by decide))).2⟩

/-- Claim C6 fails as stated: `systemReboot` and `systemSuspend` succeed on
the uninitialized state, and on an application initialized with no features
(update notifications disabled) `blockUpdate` and `allowUpdate` succeed. -/
theorem c6_runtime_controls_counterexample :
    initialState.eventLoop = false ∧
    (Application.systemReboot initialState).ok = true ∧
    (Application.systemSuspend 5 initialState).ok = true ∧
    plainApp.ok = true ∧ plainApp.state.eventLoop = true ∧
    plainApp.state.sysevent = false ∧
    (Application.blockUpdate 3 plainApp.state).ok = true ∧
    (Application.allowUpdate plainApp.state).ok = true := by decide

/-- Claim C7 (amended): `destroy` fails when not initialized; otherwise, on a
full-featured connected application it performs exactly: stop the retry timer
and destroy the live connection, cancel the watchdog alarm and restore its
disposition, unregister update notifications, close the event loop, restore
the termination handler, clear the back-reference. This is reverse order of
acquisition for the IoT, watchdog and update registrations, but the event
loop — acquired first — is closed before the termination handler and
back-reference are released, so the unwind is not strictly reverse. -/
theorem c7_destroy_order_amended :
    (∀ s : AppState, s.eventLoop = false → Application.destroy s = ⟨false, s, []⟩) ∧
    (∀ s : AppState, s.eventLoop = true → s.useIot = true → s.iotTimer.fdValid = true →
       s.iotConnected = true → s.useWatchdog = true → s.sysevent = true →
       (Application.destroy s).ok = true ∧
       (Application.destroy s).effects =
         [Effect.stopEventLoop, Effect.timerStop, Effect.destroyIotConnection,
          Effect.alarmCancel, Effect.restoreAlrmHandler, Effect.unregisterSysevent,
          Effect.closeEventLoop, Effect.restoreTermHandler, Effect.clearBackref] ∧
       resourceOrder (Application.destroy s).effects =
         [Resource.iot, Resource.watchdog, Resource.sysevent, Resource.eventLoop,
          Resource.termHandler, Resource.backref]) := by
  constructor
  · intro s h
    simp [Application.destroy, h]
  · intro s h1 h2 h3 h4 h5 h6
    simp [Application.destroy, Application.destroyRest, alarmSyscall_fst, alarmSyscall_snd,
          Timer.timerStop, resourceOrder, resourceOf, collapseAdj, h1, h2, h3, h4, h5, h6]

/-- Witness for C7 (amended) on the full-featured authenticated application. -/
theorem c7_destroy_order_amended_witness :
    (fullAuth.1.eventLoop = true ∧ fullAuth.1.useIot = true ∧
     fullAuth.1.iotTimer.fdValid = true ∧ fullAuth.1.iotConnected = true ∧
     fullAuth.1.useWatchdog = true ∧ fullAuth.1.sysevent = true) ∧
    (Application.destroy fullAuth.1).ok = true ∧
    (Application.destroy fullAuth.1).effects =
      [Effect.stopEventLoop, Effect.timerStop, Effect.destroyIotConnection,
       Effect.alarmCancel, Effect.restoreAlrmHandler, Effect.unregisterSysevent,
       Effect.closeEventLoop, Effect.restoreTermHandler, Effect.clearBackref] ∧
    resourceOrder (Application.destroy fullAuth.1).effects =
      [Resource.iot, Resource.watchdog, Resource.sysevent, Resource.eventLoop,
       Resource.termHandler, Resource.backref] :=
  ⟨by decide,
   c7_destroy_order_amended.2 fullAuth.1 (by decide) (by decide) (by decide) (by decide)
     (by decide) (by decide)⟩

/-- Claim C7 fails as stated: for the full-featured application, the order in
which `destroy` releases the registrations is not the strict reverse of the
order in which `init` acquired them — the event loop is closed before the
termination handler and the back-reference, although it was acquired before
them. -/
theorem c7_destroy_order_counterexample :
    fullInit.ok = true ∧ fullDestroy.ok = true ∧
    resourceOrder fullInit.effects =
      [Resource.eventLoop, Resource.backref, Resource.termHandler, Resource.sysevent,
       Resource.watchdog, Resource.iot] ∧
    resourceOrder fullDestroy.effects =
      [Resource.iot, Resource.watchdog, Resource.sysevent, Resource.eventLoop,
       Resource.termHandler, Resource.backref] ∧
    resourceOrder fullDestroy.effects ≠ (resourceOrder fullInit.effects).reverse := by decide

end SpherePlusPlus
